import Mathlib

/-
Verification of the log-record parsing logic of the BedrockSmith log viewer
(src/app.py).  The Python values that flow through the program are JSON trees
(the result of json.loads), so the embedding works with an inductive JSON
type and models the Python dictionary / subscript / membership / truthiness
operations explicitly.  Fallible Python operations (KeyError, TypeError,
IndexError, json.JSONDecodeError) are modelled with Except.
-/

/-- A JSON value as produced by json.loads.  Numbers are modelled as integers:
the log records the program consumes carry integer token counts, latencies and
timestamps, and no claim depends on fractional numerals, so the embedded
json_loads below accepts integer numerals only. -/
inductive JSON where
  | null : JSON
  | bool : Bool → JSON
  | num : Int → JSON
  | str : String → JSON
  | arr : List JSON → JSON
  | obj : List (String × JSON) → JSON

/-- The exceptions the Python code can raise. -/
inductive PyErr where
  | jsonDecodeError : PyErr
  | keyError : PyErr
  | typeError : PyErr
  | indexError : PyErr
deriving DecidableEq

/-- First-match lookup in an association list (Python dict read; the parser
below keeps keys unique, last assignment winning, as Python dicts do). -/
def dget : List (String × JSON) → String → Option JSON
  | [], _ => none
  | (k', v) :: rest, k => if k' = k then some v else dget rest k

/-- Python dict assignment d[k] = v: replace in place if the key exists,
else append, preserving insertion order. -/
def dset : List (String × JSON) → String → JSON → List (String × JSON)
  | [], k, v => [(k, v)]
  | (k', v') :: rest, k, v =>
      if k' = k then (k, v) :: rest else (k', v') :: dset rest k v

/-- Key lookup on a JSON value: some only when the value is an object holding
the key. -/
def jLookup (v : JSON) (k : String) : Option JSON :=
  match v with
  | .obj fs => dget fs k
  | _ => none

/-- Two-level key lookup. -/
def jLookup2 (v : JSON) (k1 k2 : String) : Option JSON :=
  (jLookup v k1).bind (fun w => jLookup w k2)

/-- Python truthiness of a JSON value. -/
def truthy : JSON → Bool
  | .null => false
  | .bool b => b
  | .num n => n != 0
  | .str s => !s.isEmpty
  | .arr xs => !xs.isEmpty
  | .obj fs => !fs.isEmpty

/-- Is the value the JSON null (the Python None)? -/
def JSON.isNull : JSON → Bool
  | .null => true
  | _ => false

/-- Does the first character list start the second one? -/
def charsStart : List Char → List Char → Bool
  | [], _ => true
  | _, [] => false
  | n :: ns, h :: hs => n = h && charsStart ns hs

/-- Does the first character list occur contiguously in the second one? -/
def charsOccur : List Char → List Char → Bool
  | needle, [] => needle.isEmpty
  | needle, c :: rest => charsStart needle (c :: rest) || charsOccur needle rest

/-- Python `k in v` for a string k: key membership for dicts, substring test
for strings, element membership for lists, TypeError otherwise. -/
def pyContains (v : JSON) (k : String) : Except PyErr Bool :=
  match v with
  | .obj fs => .ok (dget fs k).isSome
  | .str s => .ok (charsOccur k.toList s.toList)
  | .arr xs => .ok (xs.any (fun x => match x with | .str s => s = k | _ => false))
  | _ => .error .typeError

/-- Python `v[k]` for a string key k: dict lookup (KeyError when missing),
TypeError on any non-dict value. -/
def pyGetStr (v : JSON) (k : String) : Except PyErr JSON :=
  match v with
  | .obj fs =>
      match dget fs k with
      | some x => .ok x
      | none => .error .keyError
  | _ => .error .typeError

/-- Python len(v). -/
def pyLen : JSON → Except PyErr Nat
  | .str s => .ok s.length
  | .arr xs => .ok xs.length
  | .obj fs => .ok fs.length
  | _ => .error .typeError

/-- Python `v[0]`. Dict keys coming from JSON are strings, so `d[0]` on a
dict is a KeyError. -/
def pyIndex0 : JSON → Except PyErr JSON
  | .arr [] => .error .indexError
  | .arr (x :: _) => .ok x
  | .str s =>
      match s.toList with
      | [] => .error .indexError
      | c :: _ => .ok (.str (String.mk [c]))
  | .obj _ => .error .keyError
  | _ => .error .typeError

/-- Python iteration `for x in v`: list elements, string characters, dict
keys; TypeError otherwise. -/
def pyIter : JSON → Except PyErr (List JSON)
  | .arr xs => .ok xs
  | .str s => .ok (s.toList.map (fun c => .str (String.mk [c])))
  | .obj fs => .ok (fs.map (fun p => .str p.1))
  | _ => .error .typeError

------------------------------------------------------------------------
-- json.loads, embedded as a fuel-based recursive-descent parser over the
-- character list of the message.  It covers the JSON subset the log
-- records use: objects, arrays, strings with the single-character
-- escapes, integers, true/false/null.  Fractional or exponent numerals
-- and \u escapes are outside the modelled subset.
------------------------------------------------------------------------

/-- JSON whitespace characters. -/
def wsChar : Char → Bool
  | ' ' => true
  | '\t' => true
  | '\n' => true
  | '\r' => true
  | _ => false

/-- Drop leading JSON whitespace. -/
def dropWs (cs : List Char) : List Char :=
  match cs with
  | [] => []
  | ch :: more => if wsChar ch then dropWs more else ch :: more

/-- Single-character string escapes of JSON. -/
def escChar (e : Char) : Option Char :=
  if e = 'n' then some '\n'
  else if e = 't' then some '\t'
  else if e = 'r' then some '\r'
  else if e = 'b' then some (Char.ofNat 8)
  else if e = 'f' then some (Char.ofNat 12)
  else if e = '"' then some '"'
  else if e = '\\' then some '\\'
  else if e = '/' then some '/'
  else none

/-- Parse the body of a JSON string after the opening quote; returns the
string contents and the remaining characters after the closing quote. -/
def parseStringChars : List Char → Option (List Char × List Char)
  | [] => none
  | c :: rest =>
      if c = '"' then some ([], rest)
      else if c = '\\' then
        match rest with
        | [] => none
        | e :: rest2 =>
            match escChar e with
            | some d =>
                match parseStringChars rest2 with
                | some (s, r) => some (d :: s, r)
                | none => none
            | none => none
      else if c.toNat < 32 then none
      else
        match parseStringChars rest with
        | some (s, r) => some (c :: s, r)
        | none => none

/-- Split the longest digit prefix off a character list. -/
def digitSpan : List Char → (List Char × List Char)
  | [] => ([], [])
  | ch :: more =>
      if ch.isDigit then
        match digitSpan more with
        | (ds, rest) => (ch :: ds, rest)
      else ([], ch :: more)

/-- Accumulate digit characters into a natural number. -/
def natOfDigits (acc : Nat) : List Char → Nat
  | [] => acc
  | d :: ds => natOfDigits (acc * 10 + (d.toNat - 48)) ds

/-- Parse an unsigned integer numeral (JSON forbids leading zeros; a
fraction or exponent suffix is outside the modelled subset). -/
def parseNum (cs : List Char) : Option (Int × List Char) :=
  match digitSpan cs with
  | ([], _) => none
  | (ds, r) =>
      if ds.length > 1 && ds.head? = some '0' then none
      else
        match r with
        | c :: _ =>
            if c = '.' || c = 'e' || c = 'E' then none
            else some ((natOfDigits 0 ds : Int), r)
        | [] => some ((natOfDigits 0 ds : Int), [])

mutual

/-- Parse one JSON value (leading whitespace allowed); fuel bounds the
recursion depth. -/
def parseValue : Nat → List Char → Option (JSON × List Char)
  | 0, _ => none
  | Nat.succ fuel, cs =>
      match dropWs cs with
      | [] => none
      | c :: rest =>
          if c = '\x7b' then
            match dropWs rest with
            | '\x7d' :: r => some (.obj [], r)
            | cs2 => parseMembers fuel cs2 []
          else if c = '[' then
            match dropWs rest with
            | ']' :: r => some (.arr [], r)
            | cs2 => parseItems fuel cs2 []
          else if c = '"' then
            match parseStringChars rest with
            | some (s, r) => some (.str (String.mk s), r)
            | none => none
          else if c = 't' then
            match rest with
            | 'r' :: 'u' :: 'e' :: r => some (.bool true, r)
            | _ => none
          else if c = 'f' then
            match rest with
            | 'a' :: 'l' :: 's' :: 'e' :: r => some (.bool false, r)
            | _ => none
          else if c = 'n' then
            match rest with
            | 'u' :: 'l' :: 'l' :: r => some (.null, r)
            | _ => none
          else if c = '-' then
            match parseNum rest with
            | some (n, r) => some (.num (-n), r)
            | none => none
          else if c.isDigit then
            match parseNum (c :: rest) with
            | some (n, r) => some (.num n, r)
            | none => none
          else none

/-- Parse the members of a nonempty object body (cursor at the first key);
duplicate keys overwrite, as in a Python dict. -/
def parseMembers : Nat → List Char → List (String × JSON) →
    Option (JSON × List Char)
  | 0, _, _ => none
  | Nat.succ fuel, cs, acc =>
      match cs with
      | '"' :: rest =>
          match parseStringChars rest with
          | none => none
          | some (kcs, r1) =>
              match dropWs r1 with
              | ':' :: r2 =>
                  match parseValue fuel r2 with
                  | none => none
                  | some (v, r3) =>
                      let acc2 := dset acc (String.mk kcs) v
                      match dropWs r3 with
                      | ',' :: r4 => parseMembers fuel (dropWs r4) acc2
                      | '\x7d' :: r4 => some (.obj acc2, r4)
                      | _ => none
              | _ => none
      | _ => none

/-- Parse the items of a nonempty array body (cursor at the first item). -/
def parseItems : Nat → List Char → List JSON → Option (JSON × List Char)
  | 0, _, _ => none
  | Nat.succ fuel, cs, acc =>
      match parseValue fuel cs with
      | none => none
      | some (v, r) =>
          match dropWs r with
          | ',' :: r2 => parseItems fuel (dropWs r2) (acc ++ [v])
          | ']' :: r2 => some (.arr (acc ++ [v]), r2)
          | _ => none

end

/-- json.loads: parse one JSON document, requiring only whitespace after
it. -/
def json_loads (s : String) : Option JSON :=
  match parseValue (s.length + 1) s.toList with
  | none => none
  | some (v, rest) => if dropWs rest = [] then some v else none

------------------------------------------------------------------------
-- split_event (src/app.py lines 18-73), decomposed into the blocks of
-- the source: the input block, the output block, the three required
-- metadata fields, the output-dependent metadata, the input-dependent
-- metadata, and the errorCode read.  Python local variables start as
-- None, which is the same value as JSON null, so the fields are plain
-- JSON values with null meaning unset.
------------------------------------------------------------------------

/-- The tuple split_event returns. -/
structure ParsedEvent where
  input_body_json : JSON
  input_body_s3_path : JSON
  output_body_json : JSON
  metadata : List (String × JSON)
  errorCode : JSON

/-- Lines 37-41: the input block.  `if "input" in event:` then
`if "inputBodyJson" in event["input"]:` ... `elif "inputBodyS3Path" in
event["input"]:`. -/
def inputSplit (event : JSON) : Except PyErr (JSON × JSON) :=
  match pyContains event "input" with
  | .error e => .error e
  | .ok false => .ok (.null, .null)
  | .ok true =>
      match pyGetStr event "input" with
      | .error e => .error e
      | .ok inp =>
          match pyContains inp "inputBodyJson" with
          | .error e => .error e
          | .ok true =>
              match pyGetStr inp "inputBodyJson" with
              | .error e => .error e
              | .ok v => .ok (v, .null)
          | .ok false =>
              match pyContains inp "inputBodyS3Path" with
              | .error e => .error e
              | .ok true =>
                  match pyGetStr inp "inputBodyS3Path" with
                  | .error e => .error e
                  | .ok p => .ok (.null, p)
              | .ok false => .ok (.null, .null)

/-- Lines 43-45: the output block. -/
def outputSplit (event : JSON) : Except PyErr JSON :=
  match pyContains event "output" with
  | .error e => .error e
  | .ok false => .ok .null
  | .ok true =>
      match pyGetStr event "output" with
      | .error e => .error e
      | .ok outp =>
          match pyContains outp "outputBodyJson" with
          | .error e => .error e
          | .ok true => pyGetStr outp "outputBodyJson"
          | .ok false => .ok .null

/-- Lines 48-50: the unchecked reads of the three required top-level
fields into the metadata dict. -/
def baseMeta (event : JSON) : Except PyErr (List (String × JSON)) :=
  match pyGetStr event "timestamp" with
  | .error e => .error e
  | .ok t =>
      match pyGetStr event "modelId" with
      | .error e => .error e
      | .ok m =>
          match pyGetStr event "operation" with
          | .error e => .error e
          | .ok o => .ok (dset (dset (dset [] "timestamp" t) "modelId" m) "operation" o)

/-- The zero usage the source substitutes when there is no output body
(line 58). -/
def zeroUsage : JSON :=
  .obj [("inputTokens", .num 0), ("outputTokens", .num 0), ("totalTokens", .num 0)]

/-- Lines 52-59: `if output_body_json:` copies stopReason, usage and
metrics.latencyMs with unchecked reads, else substitutes the zero usage
and zero latency. -/
def outputMeta (output_body_json : JSON) (m : List (String × JSON)) :
    Except PyErr (List (String × JSON)) :=
  if truthy output_body_json then
    match pyGetStr output_body_json "stopReason" with
    | .error e => .error e
    | .ok sr =>
        match pyGetStr output_body_json "usage" with
        | .error e => .error e
        | .ok u =>
            match pyGetStr output_body_json "metrics" with
            | .error e => .error e
            | .ok mtr =>
                match pyGetStr mtr "latencyMs" with
                | .error e => .error e
                | .ok l => .ok (dset (dset (dset m "stopReason" sr) "usage" u) "latencyMs" l)
  else
    .ok (dset (dset m "usage" zeroUsage) "latencyMs" (.num 0))

/-- Lines 65-68 continued: the additionalModelRequestFields copy. -/
def inputMetaAMRF (input_body_json : JSON) (m : List (String × JSON)) :
    Except PyErr (List (String × JSON)) :=
  match pyContains input_body_json "additionalModelRequestFields" with
  | .error e => .error e
  | .ok true =>
      match pyGetStr input_body_json "additionalModelRequestFields" with
      | .error e => .error e
      | .ok a => .ok (dset m "additionalModelRequestFields" a)
  | .ok false => .ok m

/-- Lines 61-68: `if input_body_json:` copies inferenceConfig and
additionalModelRequestFields into the metadata when present. -/
def inputMeta (input_body_json : JSON) (m : List (String × JSON)) :
    Except PyErr (List (String × JSON)) :=
  if truthy input_body_json then
    match pyContains input_body_json "inferenceConfig" with
    | .error e => .error e
    | .ok true =>
        match pyGetStr input_body_json "inferenceConfig" with
        | .error e => .error e
        | .ok ic => inputMetaAMRF input_body_json (dset m "inferenceConfig" ic)
    | .ok false => inputMetaAMRF input_body_json m
  else
    .ok m

/-- Lines 70-71: the optional errorCode read. -/
def errorCodeOf (event : JSON) : Except PyErr JSON :=
  match pyContains event "errorCode" with
  | .error e => .error e
  | .ok true => pyGetStr event "errorCode"
  | .ok false => .ok .null

/-- split_event (lines 18-73): the whole record parser, composing the
blocks in source order. -/
def split_event (event : JSON) : Except PyErr ParsedEvent :=
  match inputSplit event with
  | .error e => .error e
  | .ok (ibj, is3) =>
      match outputSplit event with
      | .error e => .error e
      | .ok obj =>
          match baseMeta event with
          | .error e => .error e
          | .ok m1 =>
              match outputMeta obj m1 with
              | .error e => .error e
              | .ok m2 =>
                  match inputMeta ibj m2 with
                  | .error e => .error e
                  | .ok m3 =>
                      match errorCodeOf event with
                      | .error e => .error e
                      | .ok ec => .ok ⟨ibj, is3, obj, m3, ec⟩

/-- The parse contract of the spec: json.loads on the raw message string
(line 35) followed by split_event.  An invalid JSON string raises
json.JSONDecodeError; every error propagates to the caller. -/
def parse (message : String) : Except PyErr ParsedEvent :=
  match json_loads message with
  | none => .error .jsonDecodeError
  | some v => split_event v

------------------------------------------------------------------------
-- write_tag (src/app.py lines 76-101): the summary tag builder.  The
-- four f-string labels are modelled structurally, carrying the value
-- each label displays; the latency label carries the exact value of the
-- Python division latencyMs / 1000.
------------------------------------------------------------------------

/-- The color names the source passes to tagger_component. -/
inductive Color where
  | BLUE : Color
  | GREEN : Color
  | ORANGE : Color
  | GRAY : Color
  | RED : Color
deriving DecidableEq

/-- The tag labels, carrying the displayed value. -/
inductive TagLabel where
  | model : JSON → TagLabel
  | latency : Rat → TagLabel
  | tokens : JSON → TagLabel
  | operation : JSON → TagLabel
  | errorTag : TagLabel

/-- metadata[k] with KeyError on absence. -/
def dgetE (m : List (String × JSON)) (k : String) : Except PyErr JSON :=
  match dget m k with
  | some v => .ok v
  | none => .error .keyError

/-- The Python expression v / 1000: true division, defined on numbers
(Python bools divide as 0 or 1), TypeError otherwise. -/
def pyDiv1000 : JSON → Except PyErr Rat
  | .num n => .ok ((n : Rat) / 1000)
  | .bool b => .ok ((if b then (1 : Rat) else 0) / 1000)
  | _ => .error .typeError

/-- write_tag (lines 76-101): builds the four fixed tags and colors,
appending the ERROR tag and RED when errorCode is truthy.  The reads and
the division happen in the evaluation order of the source list literal. -/
def write_tag (metadata : List (String × JSON)) (errorCode : JSON) :
    Except PyErr (List TagLabel × List Color) :=
  match dgetE metadata "modelId" with
  | .error e => .error e
  | .ok m =>
      match dgetE metadata "latencyMs" with
      | .error e => .error e
      | .ok lat =>
          match pyDiv1000 lat with
          | .error e => .error e
          | .ok q =>
              match dgetE metadata "usage" with
              | .error e => .error e
              | .ok u =>
                  match pyGetStr u "totalTokens" with
                  | .error e => .error e
                  | .ok tt =>
                      match dgetE metadata "operation" with
                      | .error e => .error e
                      | .ok op =>
                          let tags := [TagLabel.model m, TagLabel.latency q,
                            TagLabel.tokens tt, TagLabel.operation op]
                          let colors := [Color.BLUE, Color.GREEN, Color.ORANGE, Color.GRAY]
                          if truthy errorCode then
                            .ok (tags ++ [TagLabel.errorTag], colors ++ [Color.RED])
                          else
                            .ok (tags, colors)

------------------------------------------------------------------------
-- write_system (src/app.py lines 104-118).  The source checks
-- `"system" in body` but then reads the module-level global
-- input_body_json, not the body parameter; the embedding makes that
-- global an explicit first argument.  The result is the text the
-- function displays, none when it displays nothing.
------------------------------------------------------------------------

/-- write_system (lines 104-118).  Line 112 of the source reads the
global input_body_json instead of the body parameter, so the global is
an explicit argument here. -/
def write_system (input_body_json : JSON) (body : JSON) :
    Except PyErr (Option JSON) :=
  match pyContains body "system" with
  | .error e => .error e
  | .ok false => .ok none
  | .ok true =>
      match pyGetStr input_body_json "system" with
      | .error e => .error e
      | .ok system =>
          match pyLen system with
          | .error e => .error e
          | .ok 0 => .ok none
          | .ok (Nat.succ _) =>
              match pyIndex0 system with
              | .error e => .error e
              | .ok first =>
                  match pyContains first "text" with
                  | .error e => .error e
                  | .ok true =>
                      match pyGetStr first "text" with
                      | .error e => .error e
                      | .ok t => .ok (some t)
                  | .ok false => .ok none

------------------------------------------------------------------------
-- write_input_message (src/app.py lines 121-136): the (role, text)
-- pairs the input Text view displays, one per content block holding a
-- text field.
------------------------------------------------------------------------

/-- The inner loop of write_input_message: the content blocks of one message. -/
def textBlocks (role : JSON) : List JSON → Except PyErr (List (JSON × JSON))
  | [] => .ok []
  | c :: rest =>
      match pyContains c "text" with
      | .error e => .error e
      | .ok true =>
          match pyGetStr c "text" with
          | .error e => .error e
          | .ok t =>
              match textBlocks role rest with
              | .error e => .error e
              | .ok l => .ok ((role, t) :: l)
      | .ok false => textBlocks role rest

/-- The outer loop of write_input_message over the messages list. -/
def messagesBlocks : List JSON → Except PyErr (List (JSON × JSON))
  | [] => .ok []
  | msg :: rest =>
      match pyGetStr msg "role" with
      | .error e => .error e
      | .ok role =>
          match pyGetStr msg "content" with
          | .error e => .error e
          | .ok content =>
              match pyIter content with
              | .error e => .error e
              | .ok cs =>
                  match textBlocks role cs with
                  | .error e => .error e
                  | .ok l1 =>
                      match messagesBlocks rest with
                      | .error e => .error e
                      | .ok l2 => .ok (l1 ++ l2)

/-- write_input_message (lines 121-136): body["messages"] iterated,
emitting one (role, text) pair per content block with a text field. -/
def write_input_message (body : JSON) : Except PyErr (List (JSON × JSON)) :=
  match pyGetStr body "messages" with
  | .error e => .error e
  | .ok messages =>
      match pyIter messages with
      | .error e => .error e
      | .ok msgs => messagesBlocks msgs

theorem dget_dset_self (m : List (String × JSON)) (k : String) (v : JSON) :
    dget (dset m k v) k = some v := by
  induction m with
  | nil => simp [dget, dset]
  | cons p rest ih =>
      obtain ⟨k', v'⟩ := p
      by_cases h : k' = k
      · simp [dget, dset, h]
      · simp [dget, dset, h, ih]

theorem dget_dset_ne (m : List (String × JSON)) {k' k : String} (v : JSON)
    (h : k' ≠ k) : dget (dset m k' v) k = dget m k := by
  induction m with
  | nil => simp [dget, dset, h]
  | cons p rest ih =>
      obtain ⟨a, b⟩ := p
      by_cases ha : a = k'
      · simp [dget, dset, ha, h, ih]
      · by_cases hb : a = k
        · simp [dget, dset, ha, hb, h, Ne.symm h, ih]
        · simp [dget, dset, ha, hb, h, ih]

theorem pyGetStr_ok_iff (v : JSON) (k : String) (x : JSON) :
    pyGetStr v k = .ok x ↔ jLookup v k = some x := by
  cases v <;> simp [pyGetStr, jLookup]
  case obj fs => cases h : dget fs k <;> simp [h]

theorem baseMeta_dsets (t m o : JSON) :
    dset (dset (dset [] "timestamp" t) "modelId" m) "operation" o =
      [("timestamp", t), ("modelId", m), ("operation", o)] := by
  simp [dset]

theorem baseMeta_inv {event : JSON} {m1 : List (String × JSON)}
    (h : baseMeta event = .ok m1) :
    ∃ t mo op, jLookup event "timestamp" = some t ∧ jLookup event "modelId" = some mo ∧
      jLookup event "operation" = some op ∧
      m1 = [("timestamp", t), ("modelId", mo), ("operation", op)] := by
  unfold baseMeta at h
  split at h
  · exact absurd h (by simp)
  next t ht =>
    split at h
    · exact absurd h (by simp)
    next mo hmo =>
      split at h
      · exact absurd h (by simp)
      next op hop =>
        refine ⟨t, mo, op, ?_, ?_, ?_, ?_⟩
        · exact (pyGetStr_ok_iff _ _ _).mp ht
        · exact (pyGetStr_ok_iff _ _ _).mp hmo
        · exact (pyGetStr_ok_iff _ _ _).mp hop
        · cases h; exact baseMeta_dsets t mo op

theorem split_event_inv {event : JSON} {r : ParsedEvent}
    (h : split_event event = .ok r) :
    inputSplit event = .ok (r.input_body_json, r.input_body_s3_path) ∧
    outputSplit event = .ok r.output_body_json ∧
    errorCodeOf event = .ok r.errorCode ∧
    ∃ m1 m2, baseMeta event = .ok m1 ∧
      outputMeta r.output_body_json m1 = .ok m2 ∧
      inputMeta r.input_body_json m2 = .ok r.metadata := by
  cases h1 : inputSplit event with
  | error e => simp [split_event, h1] at h
  | ok p =>
    obtain ⟨ibj, is3⟩ := p
    cases h2 : outputSplit event with
    | error e => simp [split_event, h1, h2] at h
    | ok obj =>
      cases h3 : baseMeta event with
      | error e => simp [split_event, h1, h2, h3] at h
      | ok m1 =>
        cases h4 : outputMeta obj m1 with
        | error e => simp [split_event, h1, h2, h3, h4] at h
        | ok m2 =>
          cases h5 : inputMeta ibj m2 with
          | error e => simp [split_event, h1, h2, h3, h4, h5] at h
          | ok m3 =>
            cases h6 : errorCodeOf event with
            | error e => simp [split_event, h1, h2, h3, h4, h5, h6] at h
            | ok ec =>
              simp only [split_event, h1, h2, h3, h4, h5, h6, Except.ok.injEq] at h
              subst h
              exact ⟨rfl, rfl, rfl, m1, m2, rfl, h4, h5⟩

theorem jLookup_some_iff (v : JSON) (k : String) (x : JSON) :
    jLookup v k = some x ↔ ∃ fs, v = .obj fs ∧ dget fs k = some x := by
  cases v <;> simp [jLookup]

theorem inputSplit_inline {event v : JSON}
    (hv : jLookup2 event "input" "inputBodyJson" = some v) :
    inputSplit event = .ok (v, .null) := by
  rw [jLookup2] at hv
  obtain ⟨inp, h1, h2⟩ := Option.bind_eq_some.mp hv
  obtain ⟨fs, rfl, hfs⟩ := (jLookup_some_iff _ _ _).mp h1
  obtain ⟨gs, rfl, hgs⟩ := (jLookup_some_iff _ _ _).mp h2
  simp [inputSplit, pyContains, pyGetStr, hfs, hgs]

theorem inputSplit_s3 {event p : JSON}
    (hno : jLookup2 event "input" "inputBodyJson" = none)
    (hp : jLookup2 event "input" "inputBodyS3Path" = some p) :
    inputSplit event = .ok (.null, p) := by
  rw [jLookup2] at hno hp
  obtain ⟨inp, h1, h2⟩ := Option.bind_eq_some.mp hp
  obtain ⟨fs, rfl, hfs⟩ := (jLookup_some_iff _ _ _).mp h1
  obtain ⟨gs, rfl, hgs⟩ := (jLookup_some_iff _ _ _).mp h2
  rw [h1] at hno
  simp only [Option.some_bind] at hno
  simp only [jLookup] at hno
  simp [inputSplit, pyContains, pyGetStr, hfs, hgs, hno]

theorem inputSplit_at_most_one {event ibj is3 : JSON}
    (h : inputSplit event = .ok (ibj, is3)) : ibj = .null ∨ is3 = .null := by
  unfold inputSplit at h
  split at h
  · exact absurd h (by simp)
  · simp only [Except.ok.injEq, Prod.mk.injEq] at h
    exact Or.inl h.1.symm
  · split at h
    · exact absurd h (by simp)
    next inp hinp =>
      split at h
      · exact absurd h (by simp)
      · split at h
        · exact absurd h (by simp)
        next v hv =>
          simp only [Except.ok.injEq, Prod.mk.injEq] at h
          exact Or.inr h.2.symm
      · split at h
        · exact absurd h (by simp)
        · split at h
          · exact absurd h (by simp)
          next p hp =>
            simp only [Except.ok.injEq, Prod.mk.injEq] at h
            exact Or.inl h.1.symm
        · simp only [Except.ok.injEq, Prod.mk.injEq] at h
          exact Or.inl h.1.symm

theorem pyGetStr_ok_inv {v k x} (h : pyGetStr v k = .ok x) :
    ∃ fs, v = JSON.obj fs ∧ dget fs k = some x := by
  obtain ⟨fs, rfl, hd⟩ := (jLookup_some_iff _ _ _).mp ((pyGetStr_ok_iff _ _ _).mp h)
  exact ⟨fs, rfl, hd⟩

theorem inputSplit_neither {event ibj is3 : JSON}
    (h : inputSplit event = .ok (ibj, is3))
    (h1 : jLookup2 event "input" "inputBodyJson" = none)
    (h2 : jLookup2 event "input" "inputBodyS3Path" = none) :
    ibj = .null ∧ is3 = .null := by
  unfold inputSplit at h
  split at h
  · exact absurd h (by simp)
  · simp only [Except.ok.injEq, Prod.mk.injEq] at h
    exact ⟨h.1.symm, h.2.symm⟩
  · split at h
    · exact absurd h (by simp)
    next inp hinp =>
      obtain ⟨fs, rfl, hfs⟩ := pyGetStr_ok_inv hinp
      split at h
      · exact absurd h (by simp)
      · split at h
        · exact absurd h (by simp)
        next v hv =>
          obtain ⟨gs, hgs, hv2⟩ := pyGetStr_ok_inv hv
          subst hgs
          rw [jLookup2] at h1
          simp [jLookup, hfs, hv2] at h1
      · split at h
        · exact absurd h (by simp)
        · split at h
          · exact absurd h (by simp)
          next p hp =>
            obtain ⟨gs, hgs, hp2⟩ := pyGetStr_ok_inv hp
            subst hgs
            rw [jLookup2] at h2
            simp [jLookup, hfs, hp2] at h2
        · simp only [Except.ok.injEq, Prod.mk.injEq] at h
          exact ⟨h.1.symm, h.2.symm⟩

theorem outputSplit_some {event v : JSON}
    (hv : jLookup2 event "output" "outputBodyJson" = some v) :
    outputSplit event = .ok v := by
  rw [jLookup2] at hv
  obtain ⟨outp, h1, h2⟩ := Option.bind_eq_some.mp hv
  obtain ⟨fs, rfl, hfs⟩ := (jLookup_some_iff _ _ _).mp h1
  obtain ⟨gs, rfl, hgs⟩ := (jLookup_some_iff _ _ _).mp h2
  simp [outputSplit, pyContains, pyGetStr, hfs, hgs]

theorem outputSplit_no_key {fs : List (String × JSON)}
    (h : dget fs "output" = none) : outputSplit (.obj fs) = .ok .null := by
  simp [outputSplit, pyContains, h]

theorem outputMeta_falsy {obj : JSON} (h : truthy obj = false)
    (m : List (String × JSON)) :
    outputMeta obj m = .ok (dset (dset m "usage" zeroUsage) "latencyMs" (.num 0)) := by
  simp [outputMeta, h]

theorem outputMeta_truthy_inv {obj : JSON} {m m2 : List (String × JSON)}
    (ht : truthy obj = true) (h : outputMeta obj m = .ok m2) :
    ∃ sr u l, jLookup obj "stopReason" = some sr ∧ jLookup obj "usage" = some u ∧
      (jLookup obj "metrics").bind (fun w => jLookup w "latencyMs") = some l ∧
      m2 = dset (dset (dset m "stopReason" sr) "usage" u) "latencyMs" l := by
  unfold outputMeta at h
  rw [if_pos ht] at h
  split at h
  · exact absurd h (by simp)
  next sr hsr =>
    split at h
    · exact absurd h (by simp)
    next u hu =>
      split at h
      · exact absurd h (by simp)
      next mtr hmtr =>
        split at h
        · exact absurd h (by simp)
        next l hl =>
          refine ⟨sr, u, l, (pyGetStr_ok_iff _ _ _).mp hsr, (pyGetStr_ok_iff _ _ _).mp hu, ?_, ?_⟩
          · rw [(pyGetStr_ok_iff _ _ _).mp hmtr]
            simpa using (pyGetStr_ok_iff _ _ _).mp hl
          · simp only [Except.ok.injEq] at h
            exact h.symm

theorem inputMetaAMRF_dget {ibj : JSON} {m m' : List (String × JSON)}
    (h : inputMetaAMRF ibj m = .ok m') {k : String}
    (hk : k ≠ "additionalModelRequestFields") : dget m' k = dget m k := by
  unfold inputMetaAMRF at h
  split at h
  · exact absurd h (by simp)
  · split at h
    · exact absurd h (by simp)
    next a ha =>
      simp only [Except.ok.injEq] at h
      subst h
      exact dget_dset_ne _ _ (Ne.symm hk)
  · simp only [Except.ok.injEq] at h
    subst h
    rfl

theorem inputMeta_dget {ibj : JSON} {m m' : List (String × JSON)}
    (h : inputMeta ibj m = .ok m') {k : String}
    (hk1 : k ≠ "inferenceConfig") (hk2 : k ≠ "additionalModelRequestFields") :
    dget m' k = dget m k := by
  unfold inputMeta at h
  split at h
  · split at h
    · exact absurd h (by simp)
    · split at h
      · exact absurd h (by simp)
      next ic hic =>
        rw [inputMetaAMRF_dget h hk2]
        exact dget_dset_ne _ _ (Ne.symm hk1)
    · exact inputMetaAMRF_dget h hk2
  · simp only [Except.ok.injEq] at h
    subst h
    rfl

theorem inputMeta_falsy {ibj : JSON} (h : truthy ibj = false)
    (m : List (String × JSON)) : inputMeta ibj m = .ok m := by
  simp [inputMeta, h]

theorem outputMeta_dget_other {obj : JSON} {m m2 : List (String × JSON)}
    (h : outputMeta obj m = .ok m2) {k : String}
    (h1 : k ≠ "stopReason") (h2 : k ≠ "usage") (h3 : k ≠ "latencyMs") :
    dget m2 k = dget m k := by
  cases ht : truthy obj with
  | false =>
      rw [outputMeta_falsy ht] at h
      simp only [Except.ok.injEq] at h
      subst h
      rw [dget_dset_ne _ _ (Ne.symm h3), dget_dset_ne _ _ (Ne.symm h2)]
  | true =>
      obtain ⟨sr, u, l, _, _, _, hm2⟩ := outputMeta_truthy_inv ht h
      subst hm2
      rw [dget_dset_ne _ _ (Ne.symm h3), dget_dset_ne _ _ (Ne.symm h2),
        dget_dset_ne _ _ (Ne.symm h1)]

theorem outputMeta_sets {obj : JSON} {m m2 : List (String × JSON)}
    (h : outputMeta obj m = .ok m2) :
    (dget m2 "usage").isSome = true ∧ (dget m2 "latencyMs").isSome = true := by
  cases ht : truthy obj with
  | false =>
      rw [outputMeta_falsy ht] at h
      simp only [Except.ok.injEq] at h
      subst h
      constructor
      · rw [dget_dset_ne _ _ (by decide), dget_dset_self]; rfl
      · rw [dget_dset_self]; rfl
  | true =>
      obtain ⟨sr, u, l, _, _, _, hm2⟩ := outputMeta_truthy_inv ht h
      subst hm2
      constructor
      · rw [dget_dset_ne _ _ (by decide), dget_dset_self]; rfl
      · rw [dget_dset_self]; rfl

/-- C1: for every valid message, parse sets the input view by priority: an
existing input.inputBodyJson is copied into inputPayload (and the pointer is
left unset); else an existing input.inputBodyS3Path is copied into
inputExternalPointer; else both are left unset; and in every case at most
one of the two is set. -/
theorem C1_input_view_priority {event : JSON} {r : ParsedEvent}
    (h : split_event event = .ok r) :
    (∀ v, jLookup2 event "input" "inputBodyJson" = some v →
      r.input_body_json = v ∧ r.input_body_s3_path = .null) ∧
    (jLookup2 event "input" "inputBodyJson" = none →
      ∀ p, jLookup2 event "input" "inputBodyS3Path" = some p →
      r.input_body_json = .null ∧ r.input_body_s3_path = p) ∧
    (jLookup2 event "input" "inputBodyJson" = none →
      jLookup2 event "input" "inputBodyS3Path" = none →
      r.input_body_json = .null ∧ r.input_body_s3_path = .null) ∧
    (r.input_body_json = .null ∨ r.input_body_s3_path = .null) := by
  obtain ⟨hin, -, -, -⟩ := split_event_inv h
  refine ⟨?_, ?_, ?_, inputSplit_at_most_one hin⟩
  · intro v hv
    rw [inputSplit_inline hv] at hin
    simp only [Except.ok.injEq, Prod.mk.injEq] at hin
    exact ⟨hin.1.symm, hin.2.symm⟩
  · intro hno p hp
    rw [inputSplit_s3 hno hp] at hin
    simp only [Except.ok.injEq, Prod.mk.injEq] at hin
    exact ⟨hin.1.symm, hin.2.symm⟩
  · intro h1 h2
    exact inputSplit_neither hin h1 h2

/-- C3: for every valid message lacking an output container, parse returns
outputPayload unset, the zero usage and zero latency in the metadata. -/
theorem C3_missing_output_defaults {event : JSON} {r : ParsedEvent}
    (h : split_event event = .ok r)
    (hout : jLookup event "output" = none) :
    r.output_body_json = .null ∧
    dget r.metadata "usage" = some zeroUsage ∧
    dget r.metadata "latencyMs" = some (JSON.num 0) := by
  obtain ⟨hin, hosp, hec, m1, m2, hbase, hom, him⟩ := split_event_inv h
  obtain ⟨t, mo, op, hts, -, -, hm1⟩ := baseMeta_inv hbase
  obtain ⟨fs, rfl, -⟩ := (jLookup_some_iff _ _ _).mp hts
  simp only [jLookup] at hout
  rw [outputSplit_no_key hout] at hosp
  simp only [Except.ok.injEq] at hosp
  have hobj : r.output_body_json = JSON.null := hosp.symm
  rw [hobj] at hom
  rw [outputMeta_falsy (show truthy JSON.null = false from rfl)] at hom
  simp only [Except.ok.injEq] at hom
  subst hom
  refine ⟨hobj, ?_, ?_⟩
  · rw [inputMeta_dget him (by decide) (by decide),
      dget_dset_ne _ _ (by decide), dget_dset_self]
  · rw [inputMeta_dget him (by decide) (by decide), dget_dset_self]

/-- C9: for every valid message whose output container holds an
outputBodyJson key with a falsy value, parse succeeds with that falsy value
as outputPayload while the metadata takes the zero defaults and no
stopReason: the defaulting is decided by truthiness, not key presence. -/
theorem C9_falsy_output_defaults {event : JSON} {r : ParsedEvent} {ob : JSON}
    (h : split_event event = .ok r)
    (hob : jLookup2 event "output" "outputBodyJson" = some ob)
    (ht : truthy ob = false) :
    r.output_body_json = ob ∧
    dget r.metadata "usage" = some zeroUsage ∧
    dget r.metadata "latencyMs" = some (JSON.num 0) ∧
    dget r.metadata "stopReason" = none := by
  obtain ⟨hin, hosp, hec, m1, m2, hbase, hom, him⟩ := split_event_inv h
  obtain ⟨t, mo, op, -, -, -, hm1⟩ := baseMeta_inv hbase
  rw [outputSplit_some hob] at hosp
  simp only [Except.ok.injEq] at hosp
  have hobj : r.output_body_json = ob := hosp.symm
  rw [hobj] at hom
  rw [outputMeta_falsy ht] at hom
  simp only [Except.ok.injEq] at hom
  subst hom
  refine ⟨hobj, ?_, ?_, ?_⟩
  · rw [inputMeta_dget him (by decide) (by decide),
      dget_dset_ne _ _ (by decide), dget_dset_self]
  · rw [inputMeta_dget him (by decide) (by decide), dget_dset_self]
  · rw [inputMeta_dget him (by decide) (by decide),
      dget_dset_ne _ _ (by decide), dget_dset_ne _ _ (by decide), hm1]
    simp [dget]

/-- C10: for every valid message whose input container has the key
inputBodyJson with a null value alongside inputBodyS3Path, parse leaves both
the inline payload and the pointer unset (selection is by key presence), and
the inferenceConfig / additionalModelRequestFields copies are skipped. -/
theorem C10_null_inline_input {event : JSON} {r : ParsedEvent}
    (h : split_event event = .ok r)
    (h1 : jLookup2 event "input" "inputBodyJson" = some JSON.null)
    (_hs3 : (jLookup2 event "input" "inputBodyS3Path").isSome = true) :
    r.input_body_json = .null ∧ r.input_body_s3_path = .null ∧
    dget r.metadata "inferenceConfig" = none ∧
    dget r.metadata "additionalModelRequestFields" = none := by
  obtain ⟨hin, hosp, hec, m1, m2, hbase, hom, him⟩ := split_event_inv h
  obtain ⟨t, mo, op, -, -, -, hm1⟩ := baseMeta_inv hbase
  rw [inputSplit_inline h1] at hin
  simp only [Except.ok.injEq, Prod.mk.injEq] at hin
  obtain ⟨hibj, his3⟩ := hin
  rw [← hibj] at him
  rw [inputMeta_falsy (show truthy JSON.null = false from rfl)] at him
  simp only [Except.ok.injEq] at him
  subst him
  refine ⟨hibj.symm, his3.symm, ?_, ?_⟩
  · rw [outputMeta_dget_other hom (by decide) (by decide) (by decide), hm1]
    simp [dget]
  · rw [outputMeta_dget_other hom (by decide) (by decide) (by decide), hm1]
    simp [dget]

/-- C4 (amended): for every valid message whose output.outputBodyJson exists
with a truthy value, parse copies stopReason, usage (hence its totalTokens
literally) and metrics.latencyMs from it into the metadata. -/
theorem C4_truthy_output_copy {event : JSON} {r : ParsedEvent} {ob : JSON}
    (h : split_event event = .ok r)
    (hob : jLookup2 event "output" "outputBodyJson" = some ob)
    (ht : truthy ob = true) :
    r.output_body_json = ob ∧
    dget r.metadata "stopReason" = jLookup ob "stopReason" ∧
    dget r.metadata "usage" = jLookup ob "usage" ∧
    dget r.metadata "latencyMs" =
      (jLookup ob "metrics").bind (fun w => jLookup w "latencyMs") ∧
    (dget r.metadata "usage").bind (fun u => jLookup u "totalTokens") =
      (jLookup ob "usage").bind (fun u => jLookup u "totalTokens") := by
  obtain ⟨hin, hosp, hec, m1, m2, hbase, hom, him⟩ := split_event_inv h
  rw [outputSplit_some hob] at hosp
  simp only [Except.ok.injEq] at hosp
  have hobj : r.output_body_json = ob := hosp.symm
  rw [hobj] at hom
  obtain ⟨sr, u, l, hsr, hu, hl, hm2⟩ := outputMeta_truthy_inv ht hom
  subst hm2
  have husage : dget r.metadata "usage" = some u := by
    rw [inputMeta_dget him (by decide) (by decide),
      dget_dset_ne _ _ (by decide), dget_dset_self]
  refine ⟨hobj, ?_, ?_, ?_, ?_⟩
  · rw [inputMeta_dget him (by decide) (by decide),
      dget_dset_ne _ _ (by decide), dget_dset_ne _ _ (by decide),
      dget_dset_self, hsr]
  · rw [husage, hu]
  · rw [inputMeta_dget him (by decide) (by decide), dget_dset_self, hl]
  · rw [husage, hu]

theorem split_event_required {event : JSON} {r : ParsedEvent}
    (h : split_event event = .ok r) :
    (jLookup event "timestamp").isSome = true ∧
    (jLookup event "modelId").isSome = true ∧
    (jLookup event "operation").isSome = true := by
  obtain ⟨-, -, -, m1, m2, hbase, -, -⟩ := split_event_inv h
  obtain ⟨t, mo, op, h1, h2, h3, -⟩ := baseMeta_inv hbase
  exact ⟨by rw [h1]; rfl, by rw [h2]; rfl, by rw [h3]; rfl⟩

/-- C2 (amended): parse fails with the JSON-decode error whenever the string
is not valid JSON, and fails whenever a required top-level field (timestamp,
modelId, operation) is absent from the decoded record; every failure is
returned to the caller, never replaced by a default.  (These are not the
only failure modes: see the counterexample with a truthy outputBodyJson
missing its usage sub-field.) -/
theorem C2_failure_modes (s : String) :
    (json_loads s = none → parse s = .error .jsonDecodeError) ∧
    (∀ v, json_loads s = some v →
      (jLookup v "timestamp" = none ∨ jLookup v "modelId" = none ∨
        jLookup v "operation" = none) →
      (parse s).isOk = false) := by
  constructor
  · intro hnone
    simp [parse, hnone]
  · intro v hv hmiss
    simp only [parse, hv]
    cases hsp : split_event v with
    | error e => rfl
    | ok r =>
      exfalso
      obtain ⟨h1, h2, h3⟩ := split_event_required hsp
      rcases hmiss with hm | hm | hm
      · rw [hm] at h1; simp at h1
      · rw [hm] at h2; simp at h2
      · rw [hm] at h3; simp at h3

/-- C7 (amended): every successful parse populates the metadata keys the
summary renderer reads (modelId, operation, usage, latencyMs), and on the
zero-default path (no truthy output body) the tag builder never fails; with
copied output metadata it can still fail on the contents, see the
counterexample. -/
theorem C7_metadata_populated {event : JSON} {r : ParsedEvent}
    (h : split_event event = .ok r) :
    (dget r.metadata "modelId").isSome = true ∧
    (dget r.metadata "operation").isSome = true ∧
    (dget r.metadata "usage").isSome = true ∧
    (dget r.metadata "latencyMs").isSome = true ∧
    (truthy r.output_body_json = false →
      (write_tag r.metadata r.errorCode).isOk = true) := by
  obtain ⟨hin, hosp, hec, m1, m2, hbase, hom, him⟩ := split_event_inv h
  obtain ⟨t, mo, op, -, -, -, hm1⟩ := baseMeta_inv hbase
  have hmo : dget r.metadata "modelId" = some mo := by
    rw [inputMeta_dget him (by decide) (by decide),
      outputMeta_dget_other hom (by decide) (by decide) (by decide), hm1]
    simp [dget]
  have hop : dget r.metadata "operation" = some op := by
    rw [inputMeta_dget him (by decide) (by decide),
      outputMeta_dget_other hom (by decide) (by decide) (by decide), hm1]
    simp [dget]
  obtain ⟨hus, hlat⟩ := outputMeta_sets hom
  refine ⟨by rw [hmo]; rfl, by rw [hop]; rfl, ?_, ?_, ?_⟩
  · rw [inputMeta_dget him (by decide) (by decide)]; exact hus
  · rw [inputMeta_dget him (by decide) (by decide)]; exact hlat
  · intro ht
    rw [outputMeta_falsy ht] at hom
    simp only [Except.ok.injEq] at hom
    subst hom
    have husage : dget r.metadata "usage" = some zeroUsage := by
      rw [inputMeta_dget him (by decide) (by decide),
        dget_dset_ne _ _ (by decide), dget_dset_self]
    have hlatv : dget r.metadata "latencyMs" = some (JSON.num 0) := by
      rw [inputMeta_dget him (by decide) (by decide), dget_dset_self]
    have e1 : dgetE r.metadata "modelId" = .ok mo := by rw [dgetE, hmo]
    have e2 : dgetE r.metadata "latencyMs" = .ok (JSON.num 0) := by
      rw [dgetE, hlatv]
    have e4 : dgetE r.metadata "usage" = .ok zeroUsage := by rw [dgetE, husage]
    have e6 : dgetE r.metadata "operation" = .ok op := by rw [dgetE, hop]
    simp only [write_tag, e1, e2, e4, e6, pyDiv1000, pyGetStr, zeroUsage, dget]
    simp only [show (("inputTokens" : String) = "totalTokens") = False by simp,
      show (("outputTokens" : String) = "totalTokens") = False by simp,
      show (("totalTokens" : String) = "totalTokens") = True by simp]
    cases htr : truthy r.errorCode <;> rfl

theorem dgetE_ok_iff (m : List (String × JSON)) (k : String) (x : JSON) :
    dgetE m k = .ok x ↔ dget m k = some x := by
  rw [dgetE]
  cases h : dget m k <;> simp

/-- C5 (amended): a successful buildTags call emits exactly the four fixed
tags in order (model, latency as latencyMs / 1000, total tokens, operation)
with the fixed colors BLUE, GREEN, ORANGE, GRAY, plus exactly one RED error
tag appended last if and only if errorCode is truthy (Python truthiness, so
a set-but-empty errorCode string emits no error tag). -/
theorem C5_tag_shape {md : List (String × JSON)} {ec : JSON}
    {tags : List TagLabel} {colors : List Color}
    (h : write_tag md ec = .ok (tags, colors)) :
    tags.length = (if truthy ec then 5 else 4) ∧
    colors = [Color.BLUE, Color.GREEN, Color.ORANGE, Color.GRAY] ++
      (if truthy ec then [Color.RED] else []) ∧
    tags[0]? = (dget md "modelId").map TagLabel.model ∧
    tags[1]? = ((dget md "latencyMs").bind
      (fun l => (pyDiv1000 l).toOption)).map TagLabel.latency ∧
    tags[2]? = ((dget md "usage").bind
      (fun u => jLookup u "totalTokens")).map TagLabel.tokens ∧
    tags[3]? = (dget md "operation").map TagLabel.operation ∧
    tags[4]? = (if truthy ec then some TagLabel.errorTag else none) := by
  unfold write_tag at h
  split at h
  · exact absurd h (by simp)
  next m hm =>
    split at h
    · exact absurd h (by simp)
    next lat hlat =>
      split at h
      · exact absurd h (by simp)
      next q hq =>
        split at h
        · exact absurd h (by simp)
        next u hu =>
          split at h
          · exact absurd h (by simp)
          next tt htt =>
            split at h
            · exact absurd h (by simp)
            next op hop =>
              rw [dgetE_ok_iff] at hm hlat hu hop
              have hjtt : jLookup u "totalTokens" = some tt :=
                (pyGetStr_ok_iff _ _ _).mp htt
              split at h
              next htr =>
                simp only [Except.ok.injEq, Prod.mk.injEq] at h
                obtain ⟨htags, hcolors⟩ := h
                subst htags
                subst hcolors
                simp [htr, hm, hlat, hq, hu, hop, hjtt, Except.toOption]
              next htr =>
                simp only [Except.ok.injEq, Prod.mk.injEq] at h
                obtain ⟨htags, hcolors⟩ := h
                subst htags
                subst hcolors
                simp only [Bool.not_eq_true] at htr
                simp [htr, hm, hlat, hq, hu, hop, hjtt, Except.toOption]

------------------------------------------------------------------------
-- Concrete records used by the examples, counterexamples and witnesses.
------------------------------------------------------------------------

/-- The raw message string of the worked example in the spec. -/
def exampleMessage : String :=
  "\x7b\"timestamp\":1000,\"modelId\":\"m1\",\"operation\":\"Converse\",\"input\":\x7b\"inputBodyJson\":\x7b\"messages\":[\x7b\"role\":\"user\",\"content\":[\x7b\"text\":\"hi\"\x7d]\x7d]\x7d\x7d,\"output\":\x7b\"outputBodyJson\":\x7b\"stopReason\":\"end\",\"usage\":\x7b\"inputTokens\":1,\"outputTokens\":2,\"totalTokens\":3\x7d,\"metrics\":\x7b\"latencyMs\":500\x7d\x7d\x7d\x7d"

/-- The inline input body of the worked example. -/
def exampleInputBody : JSON :=
  .obj [("messages", .arr [.obj [("role", .str "user"),
    ("content", .arr [.obj [("text", .str "hi")]])]])]

/-- The output body of the worked example. -/
def exampleOutputBody : JSON :=
  .obj [("stopReason", .str "end"),
    ("usage", .obj [("inputTokens", .num 1), ("outputTokens", .num 2),
      ("totalTokens", .num 3)]),
    ("metrics", .obj [("latencyMs", .num 500)])]

/-- The ParsedEvent the worked example produces. -/
def exampleParsed : ParsedEvent :=
  ⟨exampleInputBody, .null, exampleOutputBody,
    [("timestamp", .num 1000), ("modelId", .str "m1"),
     ("operation", .str "Converse"), ("stopReason", .str "end"),
     ("usage", .obj [("inputTokens", .num 1), ("outputTokens", .num 2),
       ("totalTokens", .num 3)]),
     ("latencyMs", .num 500)],
    .null⟩

set_option maxRecDepth 100000 in
/-- C8: on the worked example string, parse yields exactly the claimed
metadata (timestamp 1000, modelId m1, operation Converse, stopReason end,
the 1/2/3 usage, latencyMs 500), inputPayload and outputPayload set,
errorCode unset, and the text-block extraction on the input body yields
exactly [(user, hi)]. -/
theorem C8_concrete_example :
    parse exampleMessage = .ok exampleParsed ∧
    exampleParsed.input_body_json.isNull = false ∧
    exampleParsed.output_body_json.isNull = false ∧
    exampleParsed.errorCode.isNull = true ∧
    write_input_message exampleInputBody = .ok [(.str "user", .str "hi")] :=
  ⟨rfl, rfl, rfl, rfl, rfl⟩

/-- A record that is valid JSON with all three required top-level fields,
whose truthy outputBodyJson lacks the usage sub-field. -/
def noUsageMessage : String :=
  "\x7b\"timestamp\":1,\"modelId\":\"m\",\"operation\":\"Converse\",\"output\":\x7b\"outputBodyJson\":\x7b\"stopReason\":\"s\"\x7d\x7d\x7d"

/-- The decoded form of noUsageMessage. -/
def noUsageEvent : JSON :=
  .obj [("timestamp", .num 1), ("modelId", .str "m"),
    ("operation", .str "Converse"),
    ("output", .obj [("outputBodyJson", .obj [("stopReason", .str "s")])])]

set_option maxRecDepth 100000 in
/-- C2 counterexample: a message that is valid JSON and has every required
top-level field, yet parse fails (KeyError on the usage read), refuting
that invalid JSON or a missing required field is the only failure mode. -/
theorem C2_not_only_failure_mode_cex :
    json_loads noUsageMessage = some noUsageEvent ∧
    (jLookup noUsageEvent "timestamp").isSome = true ∧
    (jLookup noUsageEvent "modelId").isSome = true ∧
    (jLookup noUsageEvent "operation").isSome = true ∧
    parse noUsageMessage = .error .keyError :=
  ⟨rfl, rfl, rfl, rfl, rfl⟩

/-- A valid record whose output container has outputBodyJson bound to the
empty (falsy) object. -/
def emptyOutputEvent : JSON :=
  .obj [("timestamp", .num 1), ("modelId", .str "m"),
    ("operation", .str "Converse"),
    ("output", .obj [("outputBodyJson", .obj [])])]

/-- What split_event returns on emptyOutputEvent. -/
def emptyOutputParsed : ParsedEvent :=
  ⟨.null, .null, .obj [],
    [("timestamp", .num 1), ("modelId", .str "m"),
     ("operation", .str "Converse"), ("usage", zeroUsage),
     ("latencyMs", .num 0)],
    .null⟩

/-- C4 counterexample: output.outputBodyJson exists (the empty object), the
returned outputPayload is set to it (not null), yet no output metadata is
copied: metadata.usage is the zero default although outputPayload.usage
does not exist, and stopReason is absent. -/
theorem C4_falsy_output_not_copied_cex :
    split_event emptyOutputEvent = .ok emptyOutputParsed ∧
    jLookup2 emptyOutputEvent "output" "outputBodyJson" = some (.obj []) ∧
    emptyOutputParsed.output_body_json.isNull = false ∧
    dget emptyOutputParsed.metadata "usage" = some zeroUsage ∧
    jLookup emptyOutputParsed.output_body_json "usage" = none ∧
    dget emptyOutputParsed.metadata "stopReason" = none ∧
    dget emptyOutputParsed.metadata "usage" ≠
      jLookup emptyOutputParsed.output_body_json "usage" :=
  ⟨rfl, rfl, rfl, rfl, rfl, rfl, by
    intro hEq
    rw [show dget emptyOutputParsed.metadata "usage" = some zeroUsage from rfl,
      show jLookup emptyOutputParsed.output_body_json "usage" = none from rfl] at hEq
    exact Option.noConfusion hEq⟩

/-- A valid record carrying an errorCode key bound to the empty string:
the errorCode is set but falsy. -/
def emptyErrorEvent : JSON :=
  .obj [("timestamp", .num 1), ("modelId", .str "m"),
    ("operation", .str "c"), ("errorCode", .str "")]

/-- What split_event returns on emptyErrorEvent. -/
def emptyErrorParsed : ParsedEvent :=
  ⟨.null, .null, .null,
    [("timestamp", .num 1), ("modelId", .str "m"), ("operation", .str "c"),
     ("usage", zeroUsage), ("latencyMs", .num 0)],
    .str ""⟩

/-- C5 counterexample: an event whose errorCode is set (to the empty
string, hence not null) for which buildTags emits only the four base tags
and no RED entry, refuting the error tag appearing whenever errorCode is
set. -/
theorem C5_set_falsy_errorCode_cex :
    split_event emptyErrorEvent = .ok emptyErrorParsed ∧
    emptyErrorParsed.errorCode.isNull = false ∧
    truthy emptyErrorParsed.errorCode = false ∧
    write_tag emptyErrorParsed.metadata emptyErrorParsed.errorCode =
      .ok ([TagLabel.model (.str "m"), TagLabel.latency (((0 : Int) : Rat) / 1000),
        TagLabel.tokens (.num 0), TagLabel.operation (.str "c")],
        [Color.BLUE, Color.GREEN, Color.ORANGE, Color.GRAY]) :=
  ⟨rfl, rfl, rfl, rfl⟩

/-- A body holding a system prompt with text A. -/
def sysBodyA : JSON := .obj [("system", .arr [.obj [("text", .str "A")]])]

/-- A body holding a system prompt with text B. -/
def sysBodyB : JSON := .obj [("system", .arr [.obj [("text", .str "B")]])]

/-- C6: the system-prompt accessor is NOT determined by its body argument
alone.  Line 112 of src/app.py reads the module-global input_body_json
instead of the body parameter: with the same body, changing the global
changes the displayed text from A to B, and a global without a system key
even raises a KeyError. -/
theorem C6_write_system_global_bug :
    write_system sysBodyA sysBodyA = .ok (some (.str "A")) ∧
    write_system sysBodyB sysBodyA = .ok (some (.str "B")) ∧
    write_system (.obj []) sysBodyA = .error .keyError :=
  ⟨rfl, rfl, rfl⟩

/-- A valid record whose truthy outputBodyJson carries a usage object
without totalTokens. -/
def partialUsageEvent : JSON :=
  .obj [("timestamp", .num 1), ("modelId", .str "m"),
    ("operation", .str "Converse"),
    ("output", .obj [("outputBodyJson", .obj [("stopReason", .str "end"),
      ("usage", .obj [("inputTokens", .num 1)]),
      ("metrics", .obj [("latencyMs", .num 5)])])])]

/-- What split_event returns on partialUsageEvent. -/
def partialUsageParsed : ParsedEvent :=
  ⟨.null, .null,
    .obj [("stopReason", .str "end"), ("usage", .obj [("inputTokens", .num 1)]),
      ("metrics", .obj [("latencyMs", .num 5)])],
    [("timestamp", .num 1), ("modelId", .str "m"),
     ("operation", .str "Converse"), ("stopReason", .str "end"),
     ("usage", .obj [("inputTokens", .num 1)]), ("latencyMs", .num 5)],
    .null⟩

/-- C7 counterexample: a successful parse whose copied usage lacks
totalTokens; the tag builder fails on it with a KeyError, refuting that
buildTags applied to any parse result never fails. -/
theorem C7_write_tag_can_fail_cex :
    split_event partialUsageEvent = .ok partialUsageParsed ∧
    write_tag partialUsageParsed.metadata partialUsageParsed.errorCode =
      .error .keyError :=
  ⟨rfl, rfl⟩

------------------------------------------------------------------------
-- Witness instantiations of the universally quantified theorems.
------------------------------------------------------------------------

/-- A valid record with an inline input body. -/
def inlineInputEvent : JSON :=
  .obj [("timestamp", .num 1), ("modelId", .str "m"),
    ("operation", .str "c"),
    ("input", .obj [("inputBodyJson", .obj [("k", .num 1)])])]

/-- What split_event returns on inlineInputEvent. -/
def inlineInputParsed : ParsedEvent :=
  ⟨.obj [("k", .num 1)], .null, .null,
    [("timestamp", .num 1), ("modelId", .str "m"), ("operation", .str "c"),
     ("usage", zeroUsage), ("latencyMs", .num 0)],
    .null⟩

/-- C1 witness: the priority rule evaluated on a concrete record with an
inline input body. -/
theorem C1_input_view_priority_witness :
    inlineInputParsed.input_body_json = JSON.obj [("k", JSON.num 1)] ∧
    inlineInputParsed.input_body_s3_path = JSON.null :=
  (C1_input_view_priority
    (show split_event inlineInputEvent = .ok inlineInputParsed from rfl)).1
    (JSON.obj [("k", JSON.num 1)]) rfl

/-- C2 witness: the failure rule evaluated on a non-JSON string and on an
empty object missing every required field. -/
theorem C2_failure_modes_witness :
    parse "not json" = .error PyErr.jsonDecodeError ∧
    (parse "\x7b\x7d").isOk = false :=
  ⟨(C2_failure_modes "not json").1 rfl,
   (C2_failure_modes "\x7b\x7d").2 (JSON.obj []) rfl (Or.inl rfl)⟩

/-- A valid record with no output container. -/
def noOutputEvent : JSON :=
  .obj [("timestamp", .num 5), ("modelId", .str "mm"),
    ("operation", .str "Converse")]

/-- What split_event returns on noOutputEvent. -/
def noOutputParsed : ParsedEvent :=
  ⟨.null, .null, .null,
    [("timestamp", .num 5), ("modelId", .str "mm"),
     ("operation", .str "Converse"), ("usage", zeroUsage),
     ("latencyMs", .num 0)],
    .null⟩

/-- C3 witness: the zero defaults evaluated on a concrete record lacking
the output container. -/
theorem C3_missing_output_defaults_witness :
    noOutputParsed.output_body_json = JSON.null ∧
    dget noOutputParsed.metadata "usage" = some zeroUsage ∧
    dget noOutputParsed.metadata "latencyMs" = some (JSON.num 0) :=
  C3_missing_output_defaults
    (show split_event noOutputEvent = .ok noOutputParsed from rfl) rfl

/-- A valid record carrying the truthy output body of the worked example. -/
def truthyOutputEvent : JSON :=
  .obj [("timestamp", .num 1000), ("modelId", .str "m1"),
    ("operation", .str "Converse"),
    ("output", .obj [("outputBodyJson", exampleOutputBody)])]

/-- What split_event returns on truthyOutputEvent. -/
def truthyOutputParsed : ParsedEvent :=
  ⟨.null, .null, exampleOutputBody,
    [("timestamp", .num 1000), ("modelId", .str "m1"),
     ("operation", .str "Converse"), ("stopReason", .str "end"),
     ("usage", .obj [("inputTokens", .num 1), ("outputTokens", .num 2),
       ("totalTokens", .num 3)]),
     ("latencyMs", .num 500)],
    .null⟩

/-- C4 witness: the copy rule evaluated on a concrete record with a truthy
output body. -/
theorem C4_truthy_output_copy_witness :
    truthyOutputParsed.output_body_json = exampleOutputBody ∧
    dget truthyOutputParsed.metadata "stopReason" =
      jLookup exampleOutputBody "stopReason" ∧
    dget truthyOutputParsed.metadata "usage" = jLookup exampleOutputBody "usage" ∧
    dget truthyOutputParsed.metadata "latencyMs" =
      (jLookup exampleOutputBody "metrics").bind (fun w => jLookup w "latencyMs") ∧
    (dget truthyOutputParsed.metadata "usage").bind
      (fun u => jLookup u "totalTokens") =
      (jLookup exampleOutputBody "usage").bind (fun u => jLookup u "totalTokens") :=
  C4_truthy_output_copy
    (show split_event truthyOutputEvent = .ok truthyOutputParsed from rfl) rfl rfl

/-- A metadata dict and truthy errorCode for the tag builder. -/
def tagMeta : List (String × JSON) :=
  [("modelId", .str "x"), ("latencyMs", .num 2000),
   ("usage", .obj [("totalTokens", .num 7)]), ("operation", .str "Converse")]

/-- The tags write_tag builds from tagMeta with a truthy errorCode. -/
def tagMetaTags : List TagLabel :=
  [TagLabel.model (.str "x"), TagLabel.latency (((2000 : Int) : Rat) / 1000),
   TagLabel.tokens (.num 7), TagLabel.operation (.str "Converse"),
   TagLabel.errorTag]

/-- C5 witness: the tag shape evaluated on a concrete metadata dict with a
truthy errorCode. -/
theorem C5_tag_shape_witness :
    tagMetaTags.length = (if truthy (JSON.str "err") then 5 else 4) ∧
    [Color.BLUE, Color.GREEN, Color.ORANGE, Color.GRAY, Color.RED] =
      [Color.BLUE, Color.GREEN, Color.ORANGE, Color.GRAY] ++
        (if truthy (JSON.str "err") then [Color.RED] else []) ∧
    tagMetaTags[0]? = (dget tagMeta "modelId").map TagLabel.model ∧
    tagMetaTags[1]? = ((dget tagMeta "latencyMs").bind
      (fun l => (pyDiv1000 l).toOption)).map TagLabel.latency ∧
    tagMetaTags[2]? = ((dget tagMeta "usage").bind
      (fun u => jLookup u "totalTokens")).map TagLabel.tokens ∧
    tagMetaTags[3]? = (dget tagMeta "operation").map TagLabel.operation ∧
    tagMetaTags[4]? = (if truthy (JSON.str "err") then some TagLabel.errorTag
      else none) :=
  C5_tag_shape (show write_tag tagMeta (JSON.str "err") =
    .ok (tagMetaTags, [Color.BLUE, Color.GREEN, Color.ORANGE, Color.GRAY,
      Color.RED]) from rfl)

/-- C7 witness: metadata presence and tag-builder success evaluated on the
concrete record without output. -/
theorem C7_metadata_populated_witness :
    (dget noOutputParsed.metadata "usage").isSome = true ∧
    (dget noOutputParsed.metadata "latencyMs").isSome = true ∧
    (write_tag noOutputParsed.metadata noOutputParsed.errorCode).isOk = true :=
  ⟨(C7_metadata_populated
      (show split_event noOutputEvent = .ok noOutputParsed from rfl)).2.2.1,
   (C7_metadata_populated
      (show split_event noOutputEvent = .ok noOutputParsed from rfl)).2.2.2.1,
   (C7_metadata_populated
      (show split_event noOutputEvent = .ok noOutputParsed from rfl)).2.2.2.2 rfl⟩

/-- C9 witness: the truthiness rule evaluated on the concrete record whose
outputBodyJson is the empty object. -/
theorem C9_falsy_output_defaults_witness :
    emptyOutputParsed.output_body_json = JSON.obj [] ∧
    dget emptyOutputParsed.metadata "usage" = some zeroUsage ∧
    dget emptyOutputParsed.metadata "latencyMs" = some (JSON.num 0) ∧
    dget emptyOutputParsed.metadata "stopReason" = none :=
  C9_falsy_output_defaults
    (show split_event emptyOutputEvent = .ok emptyOutputParsed from rfl) rfl rfl

/-- A valid record whose input container binds inputBodyJson to null next
to an inputBodyS3Path. -/
def nullInlineEvent : JSON :=
  .obj [("timestamp", .num 1), ("modelId", .str "m"),
    ("operation", .str "c"),
    ("input", .obj [("inputBodyJson", .null),
      ("inputBodyS3Path", .str "s3://bucket/key")])]

/-- What split_event returns on nullInlineEvent. -/
def nullInlineParsed : ParsedEvent :=
  ⟨.null, .null, .null,
    [("timestamp", .num 1), ("modelId", .str "m"), ("operation", .str "c"),
     ("usage", zeroUsage), ("latencyMs", .num 0)],
    .null⟩

/-- C10 witness: the suppression rule evaluated on the concrete record with
a null inline body next to an S3 path. -/
theorem C10_null_inline_input_witness :
    nullInlineParsed.input_body_json = JSON.null ∧
    nullInlineParsed.input_body_s3_path = JSON.null ∧
    dget nullInlineParsed.metadata "inferenceConfig" = none ∧
    dget nullInlineParsed.metadata "additionalModelRequestFields" = none :=
  C10_null_inline_input
    (show split_event nullInlineEvent = .ok nullInlineParsed from rfl) rfl rfl
